import Mathlib

/-!
Verification of the MIXO ticketing backend.

The repository contains several snapshots of the same Express backend:

* a Prisma-backed variant (`src/backend/src/server.js`, `src/unnamed/part_002`,
  `src/unnamed/part_003`) with routes `/create-payment`, `/mollie-webhook`,
  `/validate/:ticketId` and an admin router (`src/backend/src/admin.js`);
* a JSON-file-backed variant (`src/unnamed/part_004`, `src/unnamed/part_005`)
  with the same routes backed by `ticketsData.json` / `usedTickets.json`;
* an early demo (`src/server.js`) where `/validate/:ticketId` is a stub.

This file gives a shallow embedding of the state and of the route handlers
and proves (or refutes) the specified properties.  Money amounts are modelled
as rationals; `Date.now()` timestamps as naturals.
-/

namespace Mixo

/-- A row of the Prisma `ticket` table: a priced tier with capacity `max`,
sold counter `sold`, tier code (e.g. `"EARLY"`) and a sale status string
(`"available"`, `"sold-out"`, `"coming-soon"`, `"unavailable"`).
Field names follow the seed scripts (`src/unnamed/part_000`). -/
structure Tier where
  id     : String
  name   : String
  price  : ℚ
  max    : Int
  sold   : Int
  code   : String
  status : String
deriving Repr, DecidableEq

/-- A row of the Prisma `issuedTicket` table (`src/unnamed/part_003`,
webhook `create` call): primary key `id` is the generated ticket code. -/
structure IssuedTicket where
  id        : String
  tierId    : String
  email     : String
  paymentId : String
  used      : Bool
  usedAt    : Option Nat
deriving Repr, DecidableEq

/-- The database state the handlers read and write. -/
structure DB where
  tiers  : List Tier
  issued : List IssuedTicket
deriving Repr, DecidableEq

/-- One entry of the `tickets` array in a `/create-payment` request body /
payment metadata: `{ id, quantity }`. -/
structure SelItem where
  id       : String
  quantity : Int
deriving Repr, DecidableEq

/-- `prisma.ticket.findUnique({ where: { id } })`. -/
def findTier : List Tier → String → Option Tier
  | [], _ => none
  | t :: ts, tid => if t.id == tid then some t else findTier ts tid

/-- `prisma.issuedTicket.findUnique({ where: { id } })`. -/
def findIssued : List IssuedTicket → String → Option IssuedTicket
  | [], _ => none
  | t :: ts, c => if t.id == c then some t else findIssued ts c

/-- JavaScript `x.toFixed(2)` on a non-negative amount: round to two
decimal places (half up). -/
def toFixed2 (q : ℚ) : ℚ :=
  (⌊q * 100 + 1/2⌋ : ℚ) / 100

/-- Outcome of a `/create-payment` request: either an early
`res.status(400).json({error: msg})` return, or a Mollie payment session
opened for the given amount. -/
inductive CPResult where
  | rejected (httpStatus : Nat) (msg : String)
  | payment  (amount : ℚ)
deriving Repr, DecidableEq

/-- `true` iff a payment session was opened. -/
def CPResult.isPayment : CPResult → Bool
  | .payment _ => true
  | .rejected _ _ => false

/-- The amounts for which gateway sessions were opened by this request:
on the `rejected` branch the handler returns before the `fetch` to
`api.mollie.com`, so no session exists. -/
def gatewaySessions : CPResult → List ℚ
  | .payment a => [a]
  | .rejected _ _ => []

/-- The availability-check-and-total loop of `/create-payment` in
`src/backend/src/server.js` (lines 357–378) and the second half of
`src/unnamed/part_003`: for each selected item, look the tier up, reject
with 400 if it is missing, not `"available"`, or `sold + quantity > max`;
otherwise accumulate `price * quantity * 1.09` (9% BTW).  On success the
session amount is `totalAmount.toFixed(2)`. -/
def createPaymentLoop (db : DB) : List SelItem → ℚ → CPResult
  | [], acc => .payment (toFixed2 acc)
  | t :: rest, acc =>
    match findTier db.tiers t.id with
    | none => .rejected 400 "Ticket not found"
    | some ticket =>
      if ticket.status != "available" || decide (ticket.sold + t.quantity > ticket.max) then
        .rejected 400 ("Ticket \x22" ++ ticket.name ++ "\x22 is not available for purchase")
      else
        createPaymentLoop db rest (acc + ticket.price * (t.quantity : ℚ) * (109/100))

/-- `/create-payment` (Prisma variant with status gate), starting from a
zero total. -/
def createPayment (db : DB) (sel : List SelItem) : CPResult :=
  createPaymentLoop db sel 0

/-- Generated ticket code in the webhook of `src/unnamed/part_002` /
`src/unnamed/part_003`: `` `${t.code}-${Date.now()}-${i}` ``. -/
def genCode (tierCode : String) (now : Nat) (i : Nat) : String :=
  tierCode ++ "-" ++ toString now ++ "-" ++ toString i

/-- `prisma.ticket.update({ where: { id }, data: { sold } })`. -/
def updateTierSold (ts : List Tier) (tid : String) (newSold : Int) : List Tier :=
  ts.map (fun t => if t.id == tid then { t with sold := newSold } else t)

/-- The `/mollie-webhook` handler of `src/unnamed/part_002` (lines 159–204)
after the gateway status query: if the payment is not `"paid"` nothing
happens; otherwise `event.tickets` is read once (`snapshot`) and, for every
selected item, `sold` is set to `dbTicket.sold + t.quantity` (the snapshot
value plus the quantity — no capacity re-check, no idempotency key) and
`t.quantity` issued-ticket rows are created with codes
`` `${dbTicket.code}-${Date.now()}-${i}` ``. -/
def mollieWebhook (db : DB) (payStatus : String) (email : String)
    (sel : List SelItem) (pid : String) (now : Nat) : DB :=
  if payStatus != "paid" then db
  else
    let snapshot := db.tiers
    sel.foldl (fun acc t =>
      match findTier snapshot t.id with
      | none => acc
      | some dbTicket =>
        { tiers := updateTierSold acc.tiers dbTicket.id (dbTicket.sold + t.quantity)
          issued := acc.issued ++ (List.range t.quantity.toNat).map (fun i =>
            { id := genCode dbTicket.code now i
              tierId := dbTicket.id
              email := email
              paymentId := pid
              used := false
              usedAt := none }) }) db

/-- Sold counter of a tier, read back from the state (−1 if the tier is
missing, which never happens in the scenarios below). -/
def soldOf (db : DB) (tid : String) : Int :=
  match findTier db.tiers tid with
  | some t => t.sold
  | none => -1

/-- Capacity of a tier, read back from the state. -/
def maxOf (db : DB) (tid : String) : Int :=
  match findTier db.tiers tid with
  | some t => t.max
  | none => -1

/-- Codes of all issued tickets, in creation order. -/
def issuedIds (db : DB) : List String :=
  db.issued.map (fun t => t.id)

/-- `prisma.issuedTicket.update({ where: { id }, data: { used: true,
usedAt: new Date() } })` — and likewise the file-backed
`usedTickets[ticketId].used = true; usedTickets[ticketId].usedAt = ...`. -/
def markUsed (l : List IssuedTicket) (c : String) (now : Nat) : List IssuedTicket :=
  l.map (fun t => if t.id == c then { t with used := true, usedAt := some now } else t)

/-- `GET /validate/:ticketId` of `src/backend/src/server.js` (lines 451–462),
`src/unnamed/part_003` and `src/unnamed/part_004`: look the ticket up; 404 if
absent, 410 if `used`, otherwise mark it used and answer 200.  Returns the
HTTP status and the state after the call. -/
def validateTicket (db : DB) (c : String) (now : Nat) : Nat × DB :=
  match findIssued db.issued c with
  | none => (404, db)
  | some t =>
    if t.used then (410, db)
    else (200, { db with issued := markUsed db.issued c now })

/-- Issue a single ticket record with `used = false`, as the webhook's
`issuedTicket.create` / `usedTickets[ticketId] = { used: false }` does. -/
def issue (db : DB) (c tid email pid : String) : DB :=
  { db with issued := db.issued ++ [⟨c, tid, email, pid, false, none⟩] }

/-- `k` further `validateTicket` calls on the same code at time `m`,
keeping only the state. -/
def validateTimes (c : String) (m : Nat) : Nat → DB → DB
  | 0, db => db
  | k + 1, db => validateTimes c m k (validateTicket db c m).2

/-- `GET /validate/:ticketId` of the demo snapshot `src/server.js`
(lines 171–176): it consults no store and unconditionally answers
`res.send(...)`, i.e. HTTP 200, with the ticket id echoed back. -/
def validateDemo (ticketId : String) : Nat × String :=
  (200, "Ticket " ++ ticketId ++ " scanned (demo).")

/-! ### The two awaits inside one validate call

The handler body is `findUnique` (first await), then the branch on the
result, then `update` (second await).  Splitting at the await points lets
us replay the interleaving of two concurrent scans. -/

/-- What one scanner observes at its `findUnique` await. -/
inductive ReadRes where
  | rnone
  | rused
  | rfresh
deriving Repr, DecidableEq

/-- The `findUnique` phase of `validateTicket`. -/
def validateRead (db : DB) (c : String) : ReadRes :=
  match findIssued db.issued c with
  | none => .rnone
  | some t => if t.used then .rused else .rfresh

/-- Where one of the two concurrent handler invocations stands: before its
read, between read and write (carrying what it read), or finished with an
HTTP status sent. -/
inductive Phase where
  | toRead
  | toWrite (r : ReadRes)
  | done (httpStatus : Nat)
deriving Repr, DecidableEq

/-- One scheduler step of a single validate invocation: the read await,
or the branch-and-write that follows it.  A finished invocation does not
move. -/
def procStep (c : String) (now : Nat) (p : Phase) (db : DB) : Phase × DB :=
  match p with
  | .toRead => (.toWrite (validateRead db c), db)
  | .toWrite .rnone => (.done 404, db)
  | .toWrite .rused => (.done 410, db)
  | .toWrite .rfresh => (.done 200, { db with issued := markUsed db.issued c now })
  | .done s => (.done s, db)

/-- Run two concurrent validate calls for the same code under an explicit
schedule: `true` steps scanner A, `false` steps scanner B. -/
def runTwoScanners (c : String) (nA nB : Nat) :
    List Bool → Phase × Phase × DB → Phase × Phase × DB
  | [], st => st
  | b :: rest, (pa, pb, db) =>
    if b then
      let (pa2, db2) := procStep c nA pa db
      runTwoScanners c nA nB rest (pa2, pb, db2)
    else
      let (pb2, db2) := procStep c nB pb db
      runTwoScanners c nA nB rest (pa, pb2, db2)

/-! ### File-backed variant (`src/server.js`) of `/create-payment` -/

/-- Value of `ticketsData[name]` in `ticketsData.json`: only a sold counter
and a capacity — no price is stored. -/
structure FileRec where
  sold : Int
  max  : Int
deriving Repr, DecidableEq

/-- One entry of the request body `tickets` array in the file-backed
variant: the client sends name, price and quantity. -/
structure ClientItem where
  name     : String
  price    : ℚ
  quantity : Int
deriving Repr, DecidableEq

/-- `ticketsData[t.name]` lookup. -/
def fileLookup (data : List (String × FileRec)) (n : String) : Option FileRec :=
  (data.find? (fun p => p.1 == n)).map (fun p => p.2)

/-- The capacity guard of `src/server.js` lines 93–97:
`t.quantity + (ticketsData[t.name]?.sold ?? 0) > ticketsData[t.name]?.max`.
When the name is unknown the comparison against `undefined` is false, so
the item passes. -/
def fileCheckOk (data : List (String × FileRec)) (t : ClientItem) : Bool :=
  match fileLookup data t.name with
  | some r => !decide (t.quantity + r.sold > r.max)
  | none => true

/-- The check-and-total loop of `/create-payment` in `src/server.js`
(lines 89–101): reject with 400 when an item fails the capacity guard,
otherwise accumulate `t.quantity * t.price` — the price taken from the
request body.  The session amount is `totalAmount.toFixed(2)`. -/
def createPaymentFileLoop (data : List (String × FileRec)) :
    List ClientItem → ℚ → CPResult
  | [], acc => .payment (toFixed2 acc)
  | t :: rest, acc =>
    if fileCheckOk data t then
      createPaymentFileLoop data rest (acc + (t.quantity : ℚ) * t.price)
    else
      .rejected 400 ("Not enough " ++ t.name ++ " tickets available")

/-- File-backed `/create-payment`, starting from a zero total. -/
def createPaymentFile (data : List (String × FileRec)) (items : List ClientItem) : CPResult :=
  createPaymentFileLoop data items 0

/-! ### Admin router (`src/backend/src/admin.js`) -/

/-- The request fields `/admin/update-ticket` reads. -/
structure UpdateReq where
  pass     : Option String
  ticketId : Option String
  price    : Option ℚ
  max      : Option Int
  status   : Option String
deriving Repr, DecidableEq

/-- `checkAdmin(req, res)` (`src/backend/src/admin.js` lines 10–13): if the
`pass` parameter is missing or differs from `ADMIN_PASS` it sends a 403
response — and merely returns from `checkAdmin`, without signalling the
caller.  The result is the list of responses this call attempted to send. -/
def checkAdmin (pass : Option String) (adminPass : String) : List Nat :=
  match pass with
  | none => [403]
  | some p => if p != adminPass then [403] else []

/-- `prisma.ticket.update({ where: { id: ticketId }, data: { price, max,
status } })`: a field left `undefined` in the request is not touched. -/
def applyUpdate (ts : List Tier) (tid : String) (price : Option ℚ)
    (mx : Option Int) (st : Option String) : List Tier :=
  ts.map (fun t =>
    if t.id == tid then
      { t with price := price.getD t.price, max := mx.getD t.max,
               status := st.getD t.status }
    else t)

/-- `POST /admin/update-ticket` (`src/backend/src/admin.js` lines 23–35):
the handler calls `checkAdmin` and then unconditionally continues — missing
`ticketId` yields 400, an unknown ticket makes `prisma.ticket.update` throw
(caught as 500), and otherwise the update is applied and 200 sent.  Returns
the list of attempted responses and the state after the call. -/
def updateTicketRoute (adminPass : String) (db : DB) (r : UpdateReq) :
    List Nat × DB :=
  let auth := checkAdmin r.pass adminPass
  match r.ticketId with
  | none => (auth ++ [400], db)
  | some tid =>
    if (findTier db.tiers tid).isSome then
      (auth ++ [200],
       { db with tiers := applyUpdate db.tiers tid r.price r.max r.status })
    else
      (auth ++ [500], db)

/-! ### The `${t.code}-${Date.now()}` variant

The first snapshot in `src/backend/src/server.js` (lines 137–141) generates
`` const ticketId = `${t.code}-${Date.now()}` `` — without the loop index. -/

/-- Ticket code of `src/backend/src/server.js` line 138. -/
def genCodeNoIdx (tierCode : String) (now : Nat) : String :=
  tierCode ++ "-" ++ toString now

/-! ### The pending-orders file-backed variant (`src/unnamed/part_004`)

Its `/create-payment` (lines 140–192) runs the same guard-and-total loop
over client-priced items, but line 157 reassigns
`totalAmount = totalAmount.toFixed(2)` — a string — and line 167 then
evaluates `totalAmount.toFixed(2)` again while building the fetch body.
`toFixed` is a `Number` method, so the second call throws a `TypeError`,
caught by the surrounding try/catch as a 500 response — before the `fetch`
to the gateway ever runs. -/

/-- The JavaScript value held by `totalAmount`: a number until line 157
reassigns it to the 2-decimal string rendering (whose numeric content we
carry as a rational). -/
inductive JSAmount where
  | num (q : ℚ)
  | str (q : ℚ)
deriving Repr, DecidableEq

/-- `x.toFixed(2)`: on a number it returns the rounded 2-decimal string;
a string has no `toFixed` property, so the call throws a `TypeError`. -/
def jsToFixed2 : JSAmount → Except String JSAmount
  | .num q => .ok (.str (toFixed2 q))
  | .str _ => .error "TypeError: totalAmount.toFixed is not a function"

/-- The capacity guard of `src/unnamed/part_004` lines 151–154:
`sold + t.quantity > (ticketsData[t.name]?.max ?? Infinity)`; an unknown
name compares against `Infinity`, so the item passes. -/
def fileCheckOkPO (data : List (String × FileRec)) (t : ClientItem) : Bool :=
  match fileLookup data t.name with
  | some r => !decide (r.sold + t.quantity > r.max)
  | none => true

/-- The guard-and-total loop of part_004's `/create-payment`, followed by
the two `toFixed` applications of lines 157 and 167: the first turns the
numeric total into a string, the second throws on that string and the
catch answers 500 — the gateway `fetch` is never reached. -/
def createPaymentPendingOrdersLoop (data : List (String × FileRec)) :
    List ClientItem → ℚ → CPResult
  | [], acc =>
    match jsToFixed2 (.num acc) with
    | .error e => .rejected 500 e
    | .ok tot =>
      match jsToFixed2 tot with
      | .error e => .rejected 500 e
      | .ok (.str v) => .payment v
      | .ok (.num v) => .payment v
  | t :: rest, acc =>
    if fileCheckOkPO data t then
      createPaymentPendingOrdersLoop data rest (acc + t.price * (t.quantity : ℚ))
    else
      .rejected 400 ("Not enough " ++ t.name ++ " tickets available")

/-- `/create-payment` of `src/unnamed/part_004`, from a zero total. -/
def createPaymentPendingOrders (data : List (String × FileRec))
    (items : List ClientItem) : CPResult :=
  createPaymentPendingOrdersLoop data items 0

/-! ### Seed data

Concrete tiers from the seed scripts (`src/unnamed/part_000`,
`src/unnamed/part_001`) and states reached by running the handlers on
them. -/

/-- `Early Bird` one sale short of capacity. -/
def earlyBirdNearCap : Tier := ⟨"tEB", "Early Bird", 5, 50, 49, "EARLY", "available"⟩

/-- `Early Bird` at capacity, `sold-out` (seed event 1). -/
def earlyBirdSoldOut : Tier := ⟨"tEB", "Early Bird", 5, 50, 50, "EARLY", "sold-out"⟩

/-- `Early Bird` with open capacity (seed event 2). -/
def earlyBirdOpen : Tier := ⟨"tEB", "Early Bird", 6, 50, 0, "EARLY", "available"⟩

/-- `Standard` at 7.50 with capacity 600 and nothing sold (seed event 1). -/
def standardTier : Tier := ⟨"tSTD", "Standard", 15/2, 600, 0, "STANDARD", "available"⟩

/-- State after two availability checks (which mutate nothing) and the
first paid fulfillment of a one-ticket `Early Bird` order, starting from
`sold = 49`. -/
def nearCapAfterFirst : DB :=
  mollieWebhook ⟨[earlyBirdNearCap], []⟩ "paid" "a@x" [⟨"tEB", 1⟩] "pay_A" 10

/-- State after the second pending paid order is also fulfilled. -/
def nearCapAfterSecond : DB :=
  mollieWebhook nearCapAfterFirst "paid" "b@x" [⟨"tEB", 1⟩] "pay_B" 20

/-- State after the first delivery of the paid webhook for `pay_1`. -/
def dupFirst : DB :=
  mollieWebhook ⟨[standardTier], []⟩ "paid" "c@x" [⟨"tSTD", 1⟩] "pay_1" 100

/-- State after a duplicate delivery of the same webhook for `pay_1`. -/
def dupSecond : DB :=
  mollieWebhook dupFirst "paid" "c@x" [⟨"tSTD", 1⟩] "pay_1" 200

/-- Two one-ticket orders fulfilled in the same millisecond (`Date.now()`
returns 777 for both webhook invocations). -/
def sameMsFirst : DB :=
  mollieWebhook ⟨[earlyBirdOpen], []⟩ "paid" "a@x" [⟨"tEB", 1⟩] "pay_A" 777

/-- The second same-millisecond fulfillment. -/
def sameMsSecond : DB :=
  mollieWebhook sameMsFirst "paid" "b@x" [⟨"tEB", 1⟩] "pay_B" 777

/-- One freshly issued, unused ticket with code `"T"`. -/
def freshTicketDB : DB := ⟨[], [⟨"T", "tSTD", "a@x", "p", false, none⟩]⟩

/-- One unused ticket `"A"` and one already-used ticket `"B"`. -/
def scanDB : DB :=
  ⟨[], [⟨"A", "tSTD", "a@x", "p1", false, none⟩,
        ⟨"B", "tSTD", "b@x", "p2", true, some 3⟩]⟩

/-! ## Helper lemmas -/

/-- Appending a new row whose key is not yet present makes it the lookup
result for that key. -/
theorem findIssued_append_right (l : List IssuedTicket) (t : IssuedTicket)
    (h : findIssued l t.id = none) : findIssued (l ++ [t]) t.id = some t := by
  induction l with
  | nil => simp [findIssued]
  | cons a as ih =>
    by_cases hc : (a.id == t.id) = true
    · simp [findIssued, hc] at h
    · simp only [findIssued, List.cons_append, hc, if_false, Bool.false_eq_true] at h ⊢
      exact ih h

/-- `markUsed` transforms exactly the row the subsequent lookup finds. -/
theorem findIssued_markUsed (l : List IssuedTicket) (c : String) (n : Nat) :
    findIssued (markUsed l c n) c =
      (findIssued l c).map (fun t => { t with used := true, usedAt := some n }) := by
  induction l with
  | nil => simp [findIssued, markUsed]
  | cons a as ih =>
    by_cases hc : (a.id == c) = true
    · simp [findIssued, markUsed, hc]
    · have hstep : markUsed (a :: as) c n = a :: markUsed as c n := by
        simp only [markUsed, List.map_cons]
        rw [if_neg hc]
      rw [hstep]
      simp only [findIssued]
      rw [if_neg hc, if_neg hc]
      exact ih

/-- Scanning an already-used ticket is a pure 410: the state is returned
unchanged. -/
theorem validateTicket_used_noop (db : DB) (c : String) (m : Nat)
    (t : IssuedTicket) (hf : findIssued db.issued c = some t)
    (hu : t.used = true) : validateTicket db c m = (410, db) := by
  simp [validateTicket, hf, hu]

/-- Once the looked-up ticket is used, any number of further scans leave
the state fixed. -/
theorem validateTimes_fixed (db : DB) (c : String) (m : Nat)
    (t : IssuedTicket) (hf : findIssued db.issued c = some t)
    (hu : t.used = true) : ∀ k, validateTimes c m k db = db := by
  intro k
  induction k with
  | zero => rfl
  | succ k ih =>
    rw [validateTimes, validateTicket_used_noop db c m t hf hu]
    exact ih

/-- `applyUpdate` transforms exactly the row the subsequent lookup finds. -/
theorem findTier_applyUpdate (ts : List Tier) (tid : String) (price : Option ℚ)
    (mx : Option Int) (st : Option String) :
    findTier (applyUpdate ts tid price mx st) tid =
      (findTier ts tid).map (fun t =>
        { t with price := price.getD t.price, max := mx.getD t.max,
                 status := st.getD t.status }) := by
  induction ts with
  | nil => simp [findTier, applyUpdate]
  | cons a as ih =>
    by_cases hc : (a.id == tid) = true
    · simp [findTier, applyUpdate, hc]
    · have hstep : applyUpdate (a :: as) tid price mx st
          = a :: applyUpdate as tid price mx st := by
        simp only [applyUpdate, List.map_cons]
        rw [if_neg hc]
      rw [hstep]
      simp only [findTier]
      rw [if_neg hc, if_neg hc]
      exact ih

/-- Evaluate `toFixed2` from the two bounds that pin the floor down. -/
theorem toFixed2_eq_of_floor (q : ℚ) (z : ℤ) (h1 : (z : ℚ) ≤ q * 100 + 1/2)
    (h2 : q * 100 + 1/2 < (z : ℚ) + 1) : toFixed2 q = (z : ℚ) / 100 := by
  rw [toFixed2, Int.floor_eq_iff.mpr ⟨h1, h2⟩]

/-- A one-item `/create-payment` that passes the guard opens a session for
`price × quantity × 1.09` rounded to 2 decimals. -/
theorem createPayment_single (db : DB) (i : SelItem) (t : Tier)
    (hf : findTier db.tiers i.id = some t)
    (hok : (t.status != "available" || decide (t.sold + i.quantity > t.max))
      = false) :
    createPayment db [i]
      = .payment (toFixed2 (t.price * (i.quantity : ℚ) * (109/100))) := by
  rw [createPayment, createPaymentLoop, hf]
  simp only [hok, Bool.false_eq_true, if_false]
  rw [createPaymentLoop, zero_add]

/-- The file-backed total loop, when every item passes the capacity guard,
returns a payment for the running total plus the client-priced sum. -/
theorem createPaymentFileLoop_sum (data : List (String × FileRec))
    (items : List ClientItem) (acc : ℚ)
    (h : ∀ t ∈ items, fileCheckOk data t = true) :
    createPaymentFileLoop data items acc =
      .payment (toFixed2 (acc + (items.map
        (fun t => (t.quantity : ℚ) * t.price)).sum)) := by
  induction items generalizing acc with
  | nil => simp [createPaymentFileLoop]
  | cons t rest ih =>
    have ht : fileCheckOk data t = true := h t (by simp)
    rw [createPaymentFileLoop, if_pos ht,
        ih _ (fun x hx => h x (List.mem_cons_of_mem _ hx))]
    simp only [List.map_cons, List.sum_cons]
    rw [add_assoc]

/-! ## Claims -/

/-- Claim C1: the spec asserts `0 ≤ soldCount ≤ capacity` after every
sequence of operations.  The code violates the upper bound: with
`Early Bird` at `sold = 49`, `max = 50`, two one-ticket checkouts both pass
the (non-mutating) availability check, and fulfilling both paid orders
drives `sold` to 51 > 50, because the webhook sets
`sold := dbTicket.sold + quantity` with no capacity re-check. -/
theorem fulfillment_oversells_capacity :
    (createPayment ⟨[earlyBirdNearCap], []⟩ [⟨"tEB", 1⟩]).isPayment = true ∧
    nearCapAfterFirst = mollieWebhook ⟨[earlyBirdNearCap], []⟩ "paid" "a@x" [⟨"tEB", 1⟩] "pay_A" 10 ∧
    soldOf nearCapAfterSecond "tEB" = 51 ∧
    maxOf nearCapAfterSecond "tEB" = 50 ∧
    soldOf nearCapAfterSecond "tEB" > maxOf nearCapAfterSecond "tEB" := by
  refine ⟨by decide, rfl, by decide, by decide, by decide⟩

/-- Claim C2: the spec asserts that a duplicate paid webhook for the same
`paymentId` is a safe no-op.  The Prisma webhook has no idempotency gate:
the second delivery of `pay_1` increments `sold` again and issues a second
ticket. -/
theorem duplicate_webhook_not_idempotent :
    soldOf dupFirst "tSTD" = 1 ∧
    soldOf dupSecond "tSTD" = 2 ∧
    soldOf dupSecond "tSTD" ≠ soldOf dupFirst "tSTD" ∧
    issuedIds dupFirst = [genCode "STANDARD" 100 0] ∧
    issuedIds dupSecond = [genCode "STANDARD" 100 0, genCode "STANDARD" 200 0] ∧
    issuedIds dupSecond ≠ issuedIds dupFirst := by
  refine ⟨by decide, by decide, by decide, by decide, by decide, by decide⟩

/-- Claim C3: the spec demands an atomic compare-and-set so that of two
concurrent scans of one code exactly one observes `Valid`.  The handler is
a read (`findUnique`) followed by a separate write (`update`): under the
schedule read-A, read-B, write-A, write-B both scanners finish with
HTTP 200. -/
theorem concurrent_validate_both_observe_valid :
    (runTwoScanners "T" 5 6 [true, false, true, false]
      (.toRead, .toRead, freshTicketDB)).1 = .done 200 ∧
    (runTwoScanners "T" 5 6 [true, false, true, false]
      (.toRead, .toRead, freshTicketDB)).2.1 = .done 200 := by
  refine ⟨by decide, by decide⟩

/-- Claim C4: issuing a fresh code and validating it yields HTTP 200
(`Valid`) and marks the ticket used; after that first success, any number
of further validations of the same code yield HTTP 410 (`AlreadyUsed`) —
sequentially, validation succeeds exactly once per issued code. -/
theorem issue_validate_round_trip (db : DB) (c tid em pid : String) (n : Nat)
    (h : findIssued db.issued c = none) :
    (validateTicket (issue db c tid em pid) c n).1 = 200 ∧
    ∀ k m m2, (validateTicket
      (validateTimes c m k (validateTicket (issue db c tid em pid) c n).2)
      c m2).1 = 410 := by
  have h1 : findIssued (issue db c tid em pid).issued c
      = some ⟨c, tid, em, pid, false, none⟩ :=
    findIssued_append_right db.issued ⟨c, tid, em, pid, false, none⟩ h
  have h200 : validateTicket (issue db c tid em pid) c n =
      (200, { issue db c tid em pid with
              issued := markUsed (issue db c tid em pid).issued c n }) := by
    simp [validateTicket, h1]
  have h2 : findIssued (markUsed (issue db c tid em pid).issued c n) c
      = some ⟨c, tid, em, pid, true, some n⟩ := by
    rw [findIssued_markUsed, h1]
    rfl
  refine ⟨by rw [h200], ?_⟩
  intro k m m2
  rw [h200]
  rw [validateTimes_fixed _ c m ⟨c, tid, em, pid, true, some n⟩ h2 rfl k]
  rw [validateTicket_used_noop _ c m2 ⟨c, tid, em, pid, true, some n⟩ h2 rfl]

/-- Witness for C4 at a concrete input: a fresh store, code
`"STANDARD-1-0"`: the first scan answers 200, the second 410. -/
theorem issue_validate_round_trip_check :
    (validateTicket (issue ⟨[], []⟩ "STANDARD-1-0" "tSTD" "a@x" "p") "STANDARD-1-0" 7).1 = 200 ∧
    (validateTicket
      (validateTimes "STANDARD-1-0" 8 0
        (validateTicket (issue ⟨[], []⟩ "STANDARD-1-0" "tSTD" "a@x" "p") "STANDARD-1-0" 7).2)
      "STANDARD-1-0" 9).1 = 410 := by
  have h := issue_validate_round_trip ⟨[], []⟩ "STANDARD-1-0" "tSTD" "a@x" "p" 7 (by decide)
  exact ⟨h.1, h.2 0 8 9⟩

/-- Claim C5, counterexample: in the snapshot `src/server.js` the
`/validate/:ticketId` route answers 200 for every code — including a code
no store has ever issued — instead of the contractual 404 for an unknown
code, and consults no store at all. -/
theorem demo_validate_unknown_code_200 :
    (validateDemo "UNKNOWN").1 = 200 ∧
    (validateDemo "UNKNOWN").1 ≠ 404 ∧ (validateDemo "UNKNOWN").1 ≠ 410 := by
  refine ⟨rfl, by decide, by decide⟩

/-- Claim C5 (amended to the snapshots that implement validation —
`src/unnamed/part_004`, `src/backend/src/server.js`, `src/unnamed/part_003`):
the status is exactly one of 404 (unknown code, nothing changed), 410
(already used, nothing changed) and 200 (existing unused code, which the
call consumes by marking it used). -/
theorem validate_http_contract_trichotomy (db : DB) (c : String) (n : Nat) :
    (findIssued db.issued c = none → validateTicket db c n = (404, db)) ∧
    (∀ t, findIssued db.issued c = some t → t.used = true →
      validateTicket db c n = (410, db)) ∧
    (∀ t, findIssued db.issued c = some t → t.used = false →
      (validateTicket db c n).1 = 200 ∧
      findIssued (validateTicket db c n).2.issued c
        = some { t with used := true, usedAt := some n }) := by
  refine ⟨fun h => by simp [validateTicket, h], ?_, ?_⟩
  · intro t hf hu
    exact validateTicket_used_noop db c n t hf hu
  · intro t hf hu
    have hv : validateTicket db c n
        = (200, { db with issued := markUsed db.issued c n }) := by
      simp [validateTicket, hf, hu]
    refine ⟨by rw [hv], ?_⟩
    rw [hv]
    show findIssued (markUsed db.issued c n) c = _
    rw [findIssued_markUsed, hf]
    rfl

/-- Witness for C5 on a concrete store holding an unused ticket `"A"` and
a used ticket `"B"`: unknown code → 404, used code → 410, fresh code →
200. -/
theorem validate_http_contract_trichotomy_check :
    validateTicket scanDB "NOPE" 0 = (404, scanDB) ∧
    validateTicket scanDB "B" 1 = (410, scanDB) ∧
    (validateTicket scanDB "A" 2).1 = 200 := by
  refine ⟨(validate_http_contract_trichotomy scanDB "NOPE" 0).1 (by decide),
    (validate_http_contract_trichotomy scanDB "B" 1).2.1
      ⟨"B", "tSTD", "b@x", "p2", true, some 3⟩ (by decide) rfl,
    ((validate_http_contract_trichotomy scanDB "A" 2).2.2
      ⟨"A", "tSTD", "a@x", "p1", false, none⟩ (by decide) rfl).1⟩

/-- Claim C6, counterexample: the file-backed variant (`src/server.js`)
charges `Σ quantity × price` with no tax factor — for `Standard` at 7.50,
quantity 2 the session amount is 15.00, not the claimed 16.35. -/
theorem file_checkout_total_without_tax :
    createPaymentFile [("Standard", ⟨0, 600⟩)] [⟨"Standard", 15/2, 2⟩]
      = .payment 15 ∧
    (15 : ℚ) ≠ 1635/100 ∧
    gatewaySessions (createPaymentFile [("Standard", ⟨0, 600⟩)]
      [⟨"Standard", 15/2, 2⟩]) = [15] := by
  have h : createPaymentFile [("Standard", ⟨0, 600⟩)] [⟨"Standard", 15/2, 2⟩]
      = .payment 15 := by
    rw [createPaymentFile, createPaymentFileLoop_sum _ _ _ (by decide)]
    have hs : (0 : ℚ) + (([⟨"Standard", 15/2, 2⟩] : List ClientItem).map
        (fun t => (t.quantity : ℚ) * t.price)).sum = 15 := by
      norm_num
    rw [hs, toFixed2_eq_of_floor 15 1500 (by norm_num) (by norm_num)]
    norm_num
  exact ⟨h, by norm_num, by rw [h]; rfl⟩

/-- Claim C6 (amended to the Prisma variants, `src/backend/src/server.js`
and `src/unnamed/part_002`/`part_003`): the charged total is
`Σ unitPrice × quantity × 1.09` rounded to 2 decimals; for `Standard` at
7.50, quantity 2 it is 16.35, and exactly that amount is the gateway
session amount. -/
theorem checkout_total_with_tax :
    createPayment ⟨[standardTier], []⟩ [⟨"tSTD", 2⟩] = .payment (1635/100) ∧
    toFixed2 ((15/2) * 2 * (109/100)) = 1635/100 ∧
    gatewaySessions (createPayment ⟨[standardTier], []⟩ [⟨"tSTD", 2⟩])
      = [1635/100] := by
  have hsingle := createPayment_single ⟨[standardTier], []⟩ ⟨"tSTD", 2⟩
    standardTier (by simp [findTier, standardTier]) (by decide)
  have hval : toFixed2 (standardTier.price
      * (((⟨"tSTD", 2⟩ : SelItem).quantity : Int) : ℚ) * (109/100))
      = 1635/100 := by
    rw [toFixed2_eq_of_floor _ 1635 (by norm_num [standardTier])
      (by norm_num [standardTier])]
    norm_num
  have h : createPayment ⟨[standardTier], []⟩ [⟨"tSTD", 2⟩]
      = .payment (1635/100) := by
    rw [hsingle, hval]
  refine ⟨h, ?_, by rw [h]; rfl⟩
  rw [toFixed2_eq_of_floor _ 1635 (by norm_num) (by norm_num)]
  norm_num

/-- Claim C7: when the looked-up tier is not `available` or its capacity
is exhausted, `/create-payment` returns the 400 rejection before the
`fetch` to the payment gateway, so no payment session is opened. -/
theorem blocked_sale_rejected_before_gateway (db : DB) (i : SelItem) (t : Tier)
    (hf : findTier db.tiers i.id = some t)
    (hblock : t.status ≠ "available" ∨ t.sold + i.quantity > t.max) :
    createPayment db [i] = .rejected 400
      ("Ticket \x22" ++ t.name ++ "\x22 is not available for purchase") ∧
    gatewaySessions (createPayment db [i]) = [] := by
  have hg : (t.status != "available" || decide (t.sold + i.quantity > t.max))
      = true := by
    rcases hblock with h | h
    · simp [bne_iff_ne, h]
    · simp [h]
  have hr : createPayment db [i] = .rejected 400
      ("Ticket \x22" ++ t.name ++ "\x22 is not available for purchase") := by
    rw [createPayment, createPaymentLoop, hf]
    simp [hg]
  exact ⟨hr, by rw [hr]; rfl⟩

/-- Witness for C7 at the blocked-sale scenario: `Early Bird`, capacity 50,
sold 50, status `sold-out` → 400 rejection and an empty list of gateway
sessions. -/
theorem blocked_sale_rejected_before_gateway_check :
    createPayment ⟨[earlyBirdSoldOut], []⟩ [⟨"tEB", 1⟩] = .rejected 400
      ("Ticket \x22" ++ earlyBirdSoldOut.name ++ "\x22 is not available for purchase") ∧
    gatewaySessions (createPayment ⟨[earlyBirdSoldOut], []⟩ [⟨"tEB", 1⟩]) = [] :=
  blocked_sale_rejected_before_gateway ⟨[earlyBirdSoldOut], []⟩ ⟨"tEB", 1⟩
    earlyBirdSoldOut (by decide) (Or.inr (by decide))

/-- Claim C8: the spec demands ticket codes unique across all issuances,
two same-millisecond issuances included.  The generated code is
`` `${code}-${Date.now()}-${i}` ``: fulfilling two distinct paid orders in
the same millisecond yields two distinct issued-ticket rows (different
`paymentId`) carrying the identical code `EARLY-777-0`; nothing in the
construction separates them. -/
theorem same_millisecond_code_collision :
    issuedIds sameMsSecond = [genCode "EARLY" 777 0, genCode "EARLY" 777 0] ∧
    sameMsSecond.issued = [⟨"EARLY-777-0", "tEB", "a@x", "pay_A", false, none⟩,
                           ⟨"EARLY-777-0", "tEB", "b@x", "pay_B", false, none⟩] ∧
    genCodeNoIdx "EARLY" 777 ++ "-0" = genCode "EARLY" 777 0 := by
  refine ⟨by decide, by decide, by decide⟩

/-- Claim C9: `checkAdmin` sends the 403 but control returns to the
handler, so a request with a wrong `pass` still applies the price / max /
status update to the store: 403 is among the attempted responses and the
ticket row is updated exactly as requested. -/
theorem admin_guard_advisory (adminPass : String) (db : DB) (r : UpdateReq)
    (p tid : String) (t : Tier)
    (hp : r.pass = some p) (hne : p ≠ adminPass)
    (htid : r.ticketId = some tid)
    (hf : findTier db.tiers tid = some t) :
    403 ∈ (updateTicketRoute adminPass db r).1 ∧
    findTier (updateTicketRoute adminPass db r).2.tiers tid =
      some { t with price := r.price.getD t.price, max := r.max.getD t.max,
                    status := r.status.getD t.status } := by
  have hauth : checkAdmin r.pass adminPass = [403] := by
    rw [hp, checkAdmin]
    simp [bne_iff_ne, hne]
  have hroute : updateTicketRoute adminPass db r =
      ([403, 200],
       { db with tiers := applyUpdate db.tiers tid r.price r.max r.status }) := by
    rw [updateTicketRoute, hauth, htid]
    simp [hf]
  refine ⟨by rw [hroute]; simp, ?_⟩
  rw [hroute]
  show findTier (applyUpdate db.tiers tid r.price r.max r.status) tid = _
  rw [findTier_applyUpdate, hf]
  rfl

/-- Witness for C9: wrong password `"wrong"` against `ADMIN_PASS`
`"secret"` still sets `max := 10` on the `Early Bird` tier, alongside the
403. -/
theorem admin_guard_advisory_check :
    403 ∈ (updateTicketRoute "secret" ⟨[earlyBirdSoldOut], []⟩
      ⟨some "wrong", some "tEB", none, some 10, none⟩).1 ∧
    findTier (updateTicketRoute "secret" ⟨[earlyBirdSoldOut], []⟩
      ⟨some "wrong", some "tEB", none, some 10, none⟩).2.tiers "tEB" =
      some { earlyBirdSoldOut with max := 10 } :=
  admin_guard_advisory "secret" ⟨[earlyBirdSoldOut], []⟩
    ⟨some "wrong", some "tEB", none, some 10, none⟩ "wrong" "tEB"
    earlyBirdSoldOut rfl (by decide) rfl (by decide)

/-- Claim C10, counterexample: the claim quantifies over the file-backed
variants, but in `src/unnamed/part_004` no payment session is ever created
for any client price — the string/`toFixed` TypeError of lines 157/167 is
caught as a 500 before the gateway `fetch`.  Concretely, a client-priced
`Standard` order that passes the capacity guard yields the 500 rejection
and an empty session list, refuting "the payment is created for exactly
that client-chosen amount" for that variant. -/
theorem pending_orders_variant_never_pays :
    createPaymentPendingOrders [("Standard", ⟨0, 600⟩)] [⟨"Standard", 15/2, 2⟩]
      = .rejected 500 "TypeError: totalAmount.toFixed is not a function" ∧
    gatewaySessions (createPaymentPendingOrders [("Standard", ⟨0, 600⟩)]
      [⟨"Standard", 15/2, 2⟩]) = [] := by
  refine ⟨by decide, by decide⟩

/-- Claim C10 (amended to the file-backed variant that reaches the gateway,
`src/server.js` lines 89–101): the session amount is `Σ quantity × price`
over the request body — `price` is whatever the client sent; the stored
tier data holds no price at all, so any client-chosen price determines the
charged amount.  (The other file-backed variant, `src/unnamed/part_004`,
never opens a session at all; see the counterexample above.) -/
theorem client_priced_gateway_amount (data : List (String × FileRec))
    (items : List ClientItem)
    (h : ∀ t ∈ items, fileCheckOk data t = true) :
    createPaymentFile data items =
      .payment (toFixed2 ((items.map
        (fun t => (t.quantity : ℚ) * t.price)).sum)) := by
  rw [createPaymentFile, createPaymentFileLoop_sum data items 0 h, zero_add]

/-- Witness for C10: the client prices `Standard` at €0.01 (stored tier:
sold 0 of 600, configured elsewhere at €7.50) and the session is opened
for €0.02. -/
theorem client_priced_gateway_amount_check :
    createPaymentFile [("Standard", ⟨0, 600⟩)] [⟨"Standard", 1/100, 2⟩]
      = .payment (1/50) := by
  rw [client_priced_gateway_amount [("Standard", ⟨0, 600⟩)]
    [⟨"Standard", 1/100, 2⟩] (by decide)]
  have hs : (([⟨"Standard", 1/100, 2⟩] : List ClientItem).map
      (fun t => (t.quantity : ℚ) * t.price)).sum = 1/50 := by
    norm_num
  rw [hs, toFixed2_eq_of_floor (1/50) 2 (by norm_num) (by norm_num)]
  norm_num

end Mixo

